import Mathlib

/-!
Shallow embedding of the core of a Game Boy emulator written in Python
(modules src/memory/mmu.py, src/cpu/cpu.py, src/core/emulator.py,
src/gpu/ppu.py, src/core/cartridge.py), together with theorems checking
the natural-language specification against this embedding.

Python fixed-length lists are modelled as a data function `Nat -> Nat`
paired with the constant list length; an index access `l[i]` is modelled
by `pyGet`, which returns `none` exactly when the Python access would
raise `IndexError`, and an assignment `l[i] = v` by `pySet` in the same
way.  Fallible computations therefore live in `Option`.  Machine bytes
and words are plain `Nat`; Python integer operations that can produce
negative values (arithmetic on register pairs, `& 0xFF` on arbitrary
ints) are modelled on `Int` with `Int.emod`, which agrees with the
Python `%` and `&`-with-mask semantics for negative operands.
-/

namespace GBEmu

/-- Model of a Python list read `data[i]` on a list of length `len`:
`none` is an `IndexError`. -/
def pyGet (data : Nat → Nat) (len i : Nat) : Option Nat :=
  if i < len then some (data i) else none

/-- Model of a Python list write `data[i] = v` on a list of length `len`:
`none` is an `IndexError`. -/
def pySet (data : Nat → Nat) (len i v : Nat) : Option (Nat → Nat) :=
  if i < len then some (fun j => if j = i then v else data j) else none

/-- Python `x & ~mask` for a non-negative `x`: clear the bits of `mask`. -/
def clearMask (x mask : Nat) : Nat := x - x.land mask

/-- Python `v & 0xFF` for an arbitrary (possibly negative) integer. -/
def byteOf (v : Int) : Nat := (v % 256).toNat

/-- MBC kind as stored in `Memory.mbc_type` (a Python string or `None`). -/
inductive MBCType where
  | noneType | romOnly | mbc1 | mbc2 | mbc3 | mbc5 | unknown
  deriving DecidableEq, Repr

/-- State of `Memory` (src/memory/mmu.py).  Each Python list is a data
function; the lengths are fixed by the constructor (`rom` 2 MiB, `wram`
and `vram` 8 KiB, `oam` 160, `hram` 127, `io` 128).  `cart_ram` starts
empty and may be allocated to 8 KiB, so its current length is carried in
`cart_ram_len`.  The boot ROM is `none` until loaded (always 256 bytes
once loaded, enforced by `load_boot_rom`). -/
structure Memory where
  rom : Nat → Nat
  wram : Nat → Nat
  vram : Nat → Nat
  oam : Nat → Nat
  hram : Nat → Nat
  io : Nat → Nat
  ie_register : Nat
  boot_rom : Option (Nat → Nat)
  boot_rom_enabled : Bool
  cart_ram : Nat → Nat
  cart_ram_len : Nat
  cart_ram_enabled : Bool
  mbc_type : MBCType
  rom_bank : Nat
  ram_bank : Nat
  ram_enabled : Bool

/-- `Memory._init_io_registers`: the initial contents of the `io` list. -/
def initIO : Nat → Nat := fun i =>
  if i = 0x00 then 0xFF
  else if i = 0x01 then 0x00
  else if i = 0x02 then 0x7E
  else if i = 0x04 then 0x00
  else if i = 0x05 then 0x00
  else if i = 0x06 then 0x00
  else if i = 0x07 then 0xF8
  else if i = 0x0F then 0xE1
  else if i = 0x10 then 0x80
  else if i = 0x11 then 0xBF
  else if i = 0x12 then 0xF3
  else if i = 0x13 then 0xFF
  else if i = 0x14 then 0xBF
  else if i = 0x40 then 0x91
  else if i = 0x41 then 0x00
  else if i = 0x42 then 0x00
  else if i = 0x43 then 0x00
  else if i = 0x44 then 0x00
  else if i = 0x45 then 0x00
  else if i = 0x47 then 0xFC
  else if i = 0x48 then 0xFF
  else if i = 0x49 then 0xFF
  else if i = 0x4A then 0x00
  else if i = 0x4B then 0x00
  else 0

/-- `Memory.__init__`: fresh memory with zeroed regions and initial
I/O register values. -/
def Memory.init : Memory where
  rom := fun _ => 0
  wram := fun _ => 0
  vram := fun _ => 0
  oam := fun _ => 0
  hram := fun _ => 0
  io := initIO
  ie_register := 0x00
  boot_rom := none
  boot_rom_enabled := true
  cart_ram := fun _ => 0
  cart_ram_len := 0
  cart_ram_enabled := false
  mbc_type := MBCType.noneType
  rom_bank := 1
  ram_bank := 0
  ram_enabled := false

/-- `Memory.reset`: reallocates every region and re-runs
`_init_io_registers`, i.e. restores the constructor state. -/
def Memory.reset (_ : Memory) : Memory := Memory.init

/-- `Memory._read_rom_bank`. -/
def Memory.read_rom_bank (m : Memory) (address : Nat) : Option Nat :=
  if m.mbc_type = MBCType.romOnly then
    if address < 2097152 then pyGet m.rom 2097152 address else some 0xFF
  else
    if (m.rom_bank - 1) * 0x4000 + (address - 0x4000) < 2097152 then
      pyGet m.rom 2097152 ((m.rom_bank - 1) * 0x4000 + (address - 0x4000))
    else some 0xFF

/-- `Memory._read_cart_ram`. -/
def Memory.read_cart_ram (m : Memory) (address : Nat) : Option Nat :=
  if ¬ m.cart_ram_enabled ∨ m.cart_ram_len = 0 then some 0xFF
  else
    if (address - 0xA000) + m.ram_bank * 0x2000 < m.cart_ram_len then
      pyGet m.cart_ram m.cart_ram_len ((address - 0xA000) + m.ram_bank * 0x2000)
    else some 0xFF

/-- `Memory.read_byte`. -/
def Memory.read_byte (m : Memory) (address : Nat) : Option Nat :=
  if address < 0x100 ∧ m.boot_rom_enabled ∧ m.boot_rom.isSome then
    match m.boot_rom with
    | some br => pyGet br 256 address
    | none => none
  else if address < 0x4000 then pyGet m.rom 2097152 address
  else if address < 0x8000 then m.read_rom_bank address
  else if address < 0xA000 then pyGet m.vram 8192 (address - 0x8000)
  else if address < 0xC000 then m.read_cart_ram address
  else if address < 0xE000 then pyGet m.wram 8192 (address - 0xC000)
  else if address < 0xFE00 then pyGet m.wram 8192 (address - 0xE000)
  else if address < 0xFEA0 then pyGet m.oam 160 (address - 0xFE00)
  else if address < 0xFF00 then some 0xFF
  else if address < 0xFF80 then pyGet m.io 128 (address - 0xFF00)
  else if address < 0xFFFF then pyGet m.hram 127 (address - 0xFF80)
  else if address = 0xFFFF then some m.ie_register
  else some 0xFF

/-- `Memory._handle_ram_enable` (writes in 0x0000-0x1FFF). -/
def Memory.handle_ram_enable (m : Memory) (value : Nat) : Memory :=
  if m.mbc_type = MBCType.mbc1 ∨ m.mbc_type = MBCType.mbc3 then
    if value.land 0x0F = 0x0A ∧ m.cart_ram_len = 0 then
      { m with ram_enabled := decide (value.land 0x0F = 0x0A),
               cart_ram := fun _ => 0, cart_ram_len := 0x2000 }
    else { m with ram_enabled := decide (value.land 0x0F = 0x0A) }
  else m

/-- `Memory._handle_rom_bank_change` (writes in 0x2000-0x3FFF). -/
def Memory.handle_rom_bank_change (m : Memory) (value : Nat) : Memory :=
  if m.mbc_type = MBCType.mbc1 ∨ m.mbc_type = MBCType.mbc2 ∨
     m.mbc_type = MBCType.mbc3 ∨ m.mbc_type = MBCType.mbc5 then
    { m with rom_bank := if value.land 0x1F = 0 then 1 else value.land 0x1F }
  else m

/-- `Memory._handle_ram_bank_change` (writes in 0x4000-0x5FFF). -/
def Memory.handle_ram_bank_change (m : Memory) (value : Nat) : Memory :=
  if m.mbc_type = MBCType.mbc1 ∨ m.mbc_type = MBCType.mbc3 then
    { m with ram_bank := value.land 0x03 }
  else m

/-- `Memory._write_cart_ram`. -/
def Memory.write_cart_ram (m : Memory) (address value : Nat) : Memory :=
  if ¬ m.cart_ram_enabled ∨ m.cart_ram_len = 0 then m
  else
    if (address - 0xA000) + m.ram_bank * 0x2000 < m.cart_ram_len then
      { m with cart_ram := fun j =>
          if j = (address - 0xA000) + m.ram_bank * 0x2000 then value
          else m.cart_ram j }
    else m

/-- `Memory._write_io_register`.  Note that the 0xFF50 branch tests
`value & 1` (not merely non-zero) and stores nothing in `io`. -/
def Memory.write_io_register (m : Memory) (address value : Nat) : Option Memory :=
  if address = 0xFF50 then
    some (if value.land 1 ≠ 0 then { m with boot_rom_enabled := false } else m)
  else if address = 0xFF00 then some m
  else if address = 0xFF04 then
    (pySet m.io 128 (address - 0xFF00) 0).map (fun f => { m with io := f })
  else if address = 0xFF44 then some m
  else
    (pySet m.io 128 (address - 0xFF00) value).map (fun f => { m with io := f })

/-- `Memory.write_byte`.  The incoming value is an arbitrary Python
integer, first masked with `value &= 0xFF`. -/
def Memory.write_byte (m : Memory) (address : Nat) (value0 : Int) : Option Memory :=
  if address < 0x2000 then some (m.handle_ram_enable (byteOf value0))
  else if address < 0x4000 then some (m.handle_rom_bank_change (byteOf value0))
  else if address < 0x6000 then some (m.handle_ram_bank_change (byteOf value0))
  else if address < 0x8000 then some m
  else if address < 0xA000 then
    (pySet m.vram 8192 (address - 0x8000) (byteOf value0)).map
      (fun f => { m with vram := f })
  else if address < 0xC000 then some (m.write_cart_ram address (byteOf value0))
  else if address < 0xE000 then
    (pySet m.wram 8192 (address - 0xC000) (byteOf value0)).map
      (fun f => { m with wram := f })
  else if address < 0xFE00 then
    (pySet m.wram 8192 (address - 0xE000) (byteOf value0)).map
      (fun f => { m with wram := f })
  else if address < 0xFEA0 then
    (pySet m.oam 160 (address - 0xFE00) (byteOf value0)).map
      (fun f => { m with oam := f })
  else if address < 0xFF00 then some m
  else if address < 0xFF80 then m.write_io_register address (byteOf value0)
  else if address < 0xFFFF then
    (pySet m.hram 127 (address - 0xFF80) (byteOf value0)).map
      (fun f => { m with hram := f })
  else if address = 0xFFFF then some { m with ie_register := byteOf value0 }
  else some m

/-- `Memory.read_word` (little-endian). -/
def Memory.read_word (m : Memory) (address : Nat) : Option Nat := do
  let low ← m.read_byte address
  let high ← m.read_byte (address + 1)
  return (high <<< 8) ||| low

/-- `Memory.write_word` (little-endian).  The Python source shifts the
value arithmetically, so the value is an `Int`. -/
def Memory.write_word (m : Memory) (address : Nat) (value : Int) : Option Memory := do
  let m ← m.write_byte address (value % 256)
  m.write_byte (address + 1) ((value.fdiv 256) % 256)

/-- `Memory.get_io_register`: returns 0 outside 0xFF00-0xFF7F. -/
def Memory.get_io_register (m : Memory) (address : Nat) : Nat :=
  if 0xFF00 ≤ address ∧ address ≤ 0xFF7F then m.io (address - 0xFF00) else 0

/-- `Memory.set_io_register`: silently ignored outside 0xFF00-0xFF7F. -/
def Memory.set_io_register (m : Memory) (address value : Nat) : Memory :=
  if 0xFF00 ≤ address ∧ address ≤ 0xFF7F then
    { m with io := fun j => if j = address - 0xFF00 then value.land 0xFF else m.io j }
  else m

/-- Python arithmetic right shift `v >> k` on an arbitrary integer. -/
def pyShr (v : Int) (k : Nat) : Int := v.fdiv (2 ^ k)

/-- CPU register file (class `Registers` in src/cpu/cpu.py).  The 8-bit
registers only ever receive masked byte values through the pair setters,
so they are `Nat`.  `pc` stays non-negative under every assignment in
the source and is a `Nat`; `sp` is decremented without masking and can
in principle go negative in Python, so it is an `Int`. -/
structure Registers where
  a : Nat
  f : Nat
  b : Nat
  c : Nat
  d : Nat
  e : Nat
  h : Nat
  l : Nat
  pc : Nat
  sp : Int
  cycles : Nat

/-- `Registers.__init__`: everything zero. -/
def Registers.init : Registers := ⟨0, 0, 0, 0, 0, 0, 0, 0, 0, 0, 0⟩

/-- `Registers.reset`: everything zero. -/
def Registers.reset (_ : Registers) : Registers := Registers.init

/-- Property getter `af`. -/
def Registers.af (r : Registers) : Nat := (r.a <<< 8) ||| r.f

/-- Property setter `af`: `a = (value >> 8) & 0xFF; f = value & 0xFF`. -/
def Registers.set_af (r : Registers) (value : Int) : Registers :=
  { r with a := byteOf (pyShr value 8), f := byteOf value }

/-- Property getter `bc`. -/
def Registers.bc (r : Registers) : Nat := (r.b <<< 8) ||| r.c

/-- Property setter `bc`. -/
def Registers.set_bc (r : Registers) (value : Int) : Registers :=
  { r with b := byteOf (pyShr value 8), c := byteOf value }

/-- Property getter `de`. -/
def Registers.de (r : Registers) : Nat := (r.d <<< 8) ||| r.e

/-- Property setter `de`. -/
def Registers.set_de (r : Registers) (value : Int) : Registers :=
  { r with d := byteOf (pyShr value 8), e := byteOf value }

/-- Property getter `hl`. -/
def Registers.hl (r : Registers) : Nat := (r.h <<< 8) ||| r.l

/-- Property setter `hl`. -/
def Registers.set_hl (r : Registers) (value : Int) : Registers :=
  { r with h := byteOf (pyShr value 8), l := byteOf value }

/-- Flag getter `flag_z` (bit 7 of F). -/
def Registers.flag_z (r : Registers) : Bool := r.f.land 0x80 ≠ 0

/-- Flag setter `flag_z`. -/
def Registers.set_flag_z (r : Registers) (v : Bool) : Registers :=
  if v then { r with f := r.f ||| 0x80 } else { r with f := clearMask r.f 0x80 }

/-- Flag getter `flag_n` (bit 6 of F). -/
def Registers.flag_n (r : Registers) : Bool := r.f.land 0x40 ≠ 0

/-- Flag setter `flag_n`. -/
def Registers.set_flag_n (r : Registers) (v : Bool) : Registers :=
  if v then { r with f := r.f ||| 0x40 } else { r with f := clearMask r.f 0x40 }

/-- Flag getter `flag_h` (bit 5 of F). -/
def Registers.flag_h (r : Registers) : Bool := r.f.land 0x20 ≠ 0

/-- Flag setter `flag_h`. -/
def Registers.set_flag_h (r : Registers) (v : Bool) : Registers :=
  if v then { r with f := r.f ||| 0x20 } else { r with f := clearMask r.f 0x20 }

/-- Flag getter `flag_c` (bit 4 of F). -/
def Registers.flag_c (r : Registers) : Bool := r.f.land 0x10 ≠ 0

/-- Flag setter `flag_c`. -/
def Registers.set_flag_c (r : Registers) (v : Bool) : Registers :=
  if v then { r with f := r.f ||| 0x10 } else { r with f := clearMask r.f 0x10 }

/-- CPU state (class `CPU`): register file plus `halted`, `stopped`,
`ime` and the latched `current_opcode`.  The memory object the Python
CPU holds a reference to is passed explicitly to each operation. -/
structure CPU where
  regs : Registers
  halted : Bool
  stopped : Bool
  ime : Bool
  current_opcode : Nat

/-- `CPU.__init__` state. -/
def CPU.init : CPU := ⟨Registers.init, false, false, false, 0⟩

/-- `CPU.reset`. -/
def CPU.reset (c : CPU) : CPU :=
  { c with regs := c.regs.reset, halted := false, stopped := false,
           ime := false, current_opcode := 0 }

/-- Result of executing one instruction: elapsed T-cycles plus the new
CPU and memory state; `none` models a Python exception. -/
abbrev StepResult := Option (Nat × CPU × Memory)

/-- `CPU._nop`. -/
def CPU.op_nop (c : CPU) (m : Memory) : StepResult := some (4, c, m)

/-- `CPU._ld_bc_nn`. -/
def CPU.op_ld_bc_nn (c : CPU) (m : Memory) : StepResult := do
  let nn ← m.read_word (c.regs.pc + 1)
  some (12, { c with regs := c.regs.set_bc nn }, m)

/-- `CPU._ld_de_nn`. -/
def CPU.op_ld_de_nn (c : CPU) (m : Memory) : StepResult := do
  let nn ← m.read_word (c.regs.pc + 1)
  some (12, { c with regs := c.regs.set_de nn }, m)

/-- `CPU._ld_hl_nn`. -/
def CPU.op_ld_hl_nn (c : CPU) (m : Memory) : StepResult := do
  let nn ← m.read_word (c.regs.pc + 1)
  some (12, { c with regs := c.regs.set_hl nn }, m)

/-- `CPU._ld_sp_nn` (plain attribute assignment, no masking). -/
def CPU.op_ld_sp_nn (c : CPU) (m : Memory) : StepResult := do
  let nn ← m.read_word (c.regs.pc + 1)
  some (12, { c with regs := { c.regs with sp := nn } }, m)

/-- `CPU._ld_hl_n`. -/
def CPU.op_ld_hl_n (c : CPU) (m : Memory) : StepResult := do
  let n ← m.read_byte (c.regs.pc + 1)
  let m ← m.write_byte c.regs.hl n
  some (12, c, m)

/-- `CPU._ld_a_hl`. -/
def CPU.op_ld_a_hl (c : CPU) (m : Memory) : StepResult := do
  let v ← m.read_byte c.regs.hl
  some (8, { c with regs := { c.regs with a := v } }, m)

/-- `CPU._ld_a_n`. -/
def CPU.op_ld_a_n (c : CPU) (m : Memory) : StepResult := do
  let n ← m.read_byte (c.regs.pc + 1)
  some (8, { c with regs := { c.regs with a := n } }, m)

/-- `CPU._ld_b_n`. -/
def CPU.op_ld_b_n (c : CPU) (m : Memory) : StepResult := do
  let n ← m.read_byte (c.regs.pc + 1)
  some (8, { c with regs := { c.regs with b := n } }, m)

/-- `CPU._ld_c_n`. -/
def CPU.op_ld_c_n (c : CPU) (m : Memory) : StepResult := do
  let n ← m.read_byte (c.regs.pc + 1)
  some (8, { c with regs := { c.regs with c := n } }, m)

/-- `CPU._ld_d_n`. -/
def CPU.op_ld_d_n (c : CPU) (m : Memory) : StepResult := do
  let n ← m.read_byte (c.regs.pc + 1)
  some (8, { c with regs := { c.regs with d := n } }, m)

/-- `CPU._ld_e_n`. -/
def CPU.op_ld_e_n (c : CPU) (m : Memory) : StepResult := do
  let n ← m.read_byte (c.regs.pc + 1)
  some (8, { c with regs := { c.regs with e := n } }, m)

/-- `CPU._ld_h_n`. -/
def CPU.op_ld_h_n (c : CPU) (m : Memory) : StepResult := do
  let n ← m.read_byte (c.regs.pc + 1)
  some (8, { c with regs := { c.regs with h := n } }, m)

/-- `CPU._ld_l_n`. -/
def CPU.op_ld_l_n (c : CPU) (m : Memory) : StepResult := do
  let n ← m.read_byte (c.regs.pc + 1)
  some (8, { c with regs := { c.regs with l := n } }, m)

/-- `CPU._inc_bc` (`bc += 1` runs the pair getter then setter). -/
def CPU.op_inc_bc (c : CPU) (m : Memory) : StepResult :=
  some (8, { c with regs := c.regs.set_bc ((c.regs.bc : Int) + 1) }, m)

/-- `CPU._inc_de`. -/
def CPU.op_inc_de (c : CPU) (m : Memory) : StepResult :=
  some (8, { c with regs := c.regs.set_de ((c.regs.de : Int) + 1) }, m)

/-- `CPU._inc_hl`. -/
def CPU.op_inc_hl (c : CPU) (m : Memory) : StepResult :=
  some (8, { c with regs := c.regs.set_hl ((c.regs.hl : Int) + 1) }, m)

/-- `CPU._inc_sp` (raw attribute, no masking). -/
def CPU.op_inc_sp (c : CPU) (m : Memory) : StepResult :=
  some (8, { c with regs := { c.regs with sp := c.regs.sp + 1 } }, m)

/-- `CPU._dec_bc`. -/
def CPU.op_dec_bc (c : CPU) (m : Memory) : StepResult :=
  some (8, { c with regs := c.regs.set_bc ((c.regs.bc : Int) - 1) }, m)

/-- `CPU._dec_de`. -/
def CPU.op_dec_de (c : CPU) (m : Memory) : StepResult :=
  some (8, { c with regs := c.regs.set_de ((c.regs.de : Int) - 1) }, m)

/-- `CPU._dec_hl`. -/
def CPU.op_dec_hl (c : CPU) (m : Memory) : StepResult :=
  some (8, { c with regs := c.regs.set_hl ((c.regs.hl : Int) - 1) }, m)

/-- `CPU._dec_sp`. -/
def CPU.op_dec_sp (c : CPU) (m : Memory) : StepResult :=
  some (8, { c with regs := { c.regs with sp := c.regs.sp - 1 } }, m)

/-- `CPU._jp_nn`. -/
def CPU.op_jp_nn (c : CPU) (m : Memory) : StepResult := do
  let nn ← m.read_word (c.regs.pc + 1)
  some (16, { c with regs := { c.regs with pc := nn } }, m)

/-- `CPU._jp_nz_nn`. -/
def CPU.op_jp_nz_nn (c : CPU) (m : Memory) : StepResult := do
  let nn ← m.read_word (c.regs.pc + 1)
  if ¬ c.regs.flag_z then some (16, { c with regs := { c.regs with pc := nn } }, m)
  else some (12, c, m)

/-- `CPU._jp_z_nn`. -/
def CPU.op_jp_z_nn (c : CPU) (m : Memory) : StepResult := do
  let nn ← m.read_word (c.regs.pc + 1)
  if c.regs.flag_z then some (16, { c with regs := { c.regs with pc := nn } }, m)
  else some (12, c, m)

/-- `CPU._jp_nc_nn`. -/
def CPU.op_jp_nc_nn (c : CPU) (m : Memory) : StepResult := do
  let nn ← m.read_word (c.regs.pc + 1)
  if ¬ c.regs.flag_c then some (16, { c with regs := { c.regs with pc := nn } }, m)
  else some (12, c, m)

/-- `CPU._jp_c_nn`. -/
def CPU.op_jp_c_nn (c : CPU) (m : Memory) : StepResult := do
  let nn ← m.read_word (c.regs.pc + 1)
  if c.regs.flag_c then some (16, { c with regs := { c.regs with pc := nn } }, m)
  else some (12, c, m)

/-- `CPU._call_nn`. -/
def CPU.op_call_nn (c : CPU) (m : Memory) : StepResult := do
  let nn ← m.read_word (c.regs.pc + 1)
  let c := { c with regs := { c.regs with sp := c.regs.sp - 2 } }
  let m ← m.write_word c.regs.sp.toNat (c.regs.pc + 3)
  some (24, { c with regs := { c.regs with pc := nn } }, m)

/-- `CPU._ret`. -/
def CPU.op_ret (c : CPU) (m : Memory) : StepResult := do
  let ret_addr ← m.read_word c.regs.sp.toNat
  let c := { c with regs := { c.regs with sp := c.regs.sp + 2 } }
  some (16, { c with regs := { c.regs with pc := ret_addr } }, m)

/-- `CPU._push_bc`. -/
def CPU.op_push_bc (c : CPU) (m : Memory) : StepResult := do
  let c := { c with regs := { c.regs with sp := c.regs.sp - 2 } }
  let m ← m.write_word c.regs.sp.toNat c.regs.bc
  some (16, c, m)

/-- `CPU._push_de`. -/
def CPU.op_push_de (c : CPU) (m : Memory) : StepResult := do
  let c := { c with regs := { c.regs with sp := c.regs.sp - 2 } }
  let m ← m.write_word c.regs.sp.toNat c.regs.de
  some (16, c, m)

/-- `CPU._push_hl`. -/
def CPU.op_push_hl (c : CPU) (m : Memory) : StepResult := do
  let c := { c with regs := { c.regs with sp := c.regs.sp - 2 } }
  let m ← m.write_word c.regs.sp.toNat c.regs.hl
  some (16, c, m)

/-- `CPU._push_af`. -/
def CPU.op_push_af (c : CPU) (m : Memory) : StepResult := do
  let c := { c with regs := { c.regs with sp := c.regs.sp - 2 } }
  let m ← m.write_word c.regs.sp.toNat c.regs.af
  some (16, c, m)

/-- `CPU._pop_bc`. -/
def CPU.op_pop_bc (c : CPU) (m : Memory) : StepResult := do
  let v ← m.read_word c.regs.sp.toNat
  let c := { c with regs := (c.regs.set_bc v) }
  some (12, { c with regs := { c.regs with sp := c.regs.sp + 2 } }, m)

/-- `CPU._pop_de`. -/
def CPU.op_pop_de (c : CPU) (m : Memory) : StepResult := do
  let v ← m.read_word c.regs.sp.toNat
  let c := { c with regs := (c.regs.set_de v) }
  some (12, { c with regs := { c.regs with sp := c.regs.sp + 2 } }, m)

/-- `CPU._pop_hl`. -/
def CPU.op_pop_hl (c : CPU) (m : Memory) : StepResult := do
  let v ← m.read_word c.regs.sp.toNat
  let c := { c with regs := (c.regs.set_hl v) }
  some (12, { c with regs := { c.regs with sp := c.regs.sp + 2 } }, m)

/-- `CPU._pop_af`.  The `af` setter stores `value & 0xFF` into F with no
low-nibble masking. -/
def CPU.op_pop_af (c : CPU) (m : Memory) : StepResult := do
  let v ← m.read_word c.regs.sp.toNat
  let c := { c with regs := (c.regs.set_af v) }
  some (12, { c with regs := { c.regs with sp := c.regs.sp + 2 } }, m)

/-- `CPU._ei` (takes effect immediately in this source). -/
def CPU.op_ei (c : CPU) (m : Memory) : StepResult := some (4, { c with ime := true }, m)

/-- `CPU._di`. -/
def CPU.op_di (c : CPU) (m : Memory) : StepResult := some (4, { c with ime := false }, m)

/-- Common body of the CB-prefixed `_bit_*` handlers: test `bit` of
`value`, set Z/N/H. -/
def Registers.bit_test (r : Registers) (value bit : Nat) : Registers :=
  (((r.set_flag_z (¬ value.land (1 <<< bit) ≠ 0)).set_flag_n false).set_flag_h true)

/-- `CPU._bit_b`. -/
def CPU.op_bit_b (c : CPU) (m : Memory) (bit : Nat) : StepResult :=
  some (8, { c with regs := c.regs.bit_test c.regs.b bit }, m)

/-- `CPU._bit_c`. -/
def CPU.op_bit_c (c : CPU) (m : Memory) (bit : Nat) : StepResult :=
  some (8, { c with regs := c.regs.bit_test c.regs.c bit }, m)

/-- `CPU._bit_d`. -/
def CPU.op_bit_d (c : CPU) (m : Memory) (bit : Nat) : StepResult :=
  some (8, { c with regs := c.regs.bit_test c.regs.d bit }, m)

/-- `CPU._bit_e`. -/
def CPU.op_bit_e (c : CPU) (m : Memory) (bit : Nat) : StepResult :=
  some (8, { c with regs := c.regs.bit_test c.regs.e bit }, m)

/-- `CPU._bit_h`. -/
def CPU.op_bit_h (c : CPU) (m : Memory) (bit : Nat) : StepResult :=
  some (8, { c with regs := c.regs.bit_test c.regs.h bit }, m)

/-- `CPU._bit_l`. -/
def CPU.op_bit_l (c : CPU) (m : Memory) (bit : Nat) : StepResult :=
  some (8, { c with regs := c.regs.bit_test c.regs.l bit }, m)

/-- `CPU._bit_hl`. -/
def CPU.op_bit_hl (c : CPU) (m : Memory) (bit : Nat) : StepResult := do
  let value ← m.read_byte c.regs.hl
  some (12, { c with regs := c.regs.bit_test value bit }, m)

/-- `CPU._bit_a`. -/
def CPU.op_bit_a (c : CPU) (m : Memory) (bit : Nat) : StepResult :=
  some (8, { c with regs := c.regs.bit_test c.regs.a bit }, m)

/-- The primary opcode table built by `CPU._build_opcode_table`,
together with the unknown-opcode default (warn and return 4 cycles). -/
def CPU.dispatch_opcode (c : CPU) (m : Memory) : StepResult :=
  match c.current_opcode with
  | 0x00 => c.op_nop m
  | 0x01 => c.op_ld_bc_nn m
  | 0x11 => c.op_ld_de_nn m
  | 0x21 => c.op_ld_hl_nn m
  | 0x31 => c.op_ld_sp_nn m
  | 0x36 => c.op_ld_hl_n m
  | 0x7E => c.op_ld_a_hl m
  | 0x3E => c.op_ld_a_n m
  | 0x06 => c.op_ld_b_n m
  | 0x0E => c.op_ld_c_n m
  | 0x16 => c.op_ld_d_n m
  | 0x1E => c.op_ld_e_n m
  | 0x26 => c.op_ld_h_n m
  | 0x2E => c.op_ld_l_n m
  | 0x03 => c.op_inc_bc m
  | 0x13 => c.op_inc_de m
  | 0x23 => c.op_inc_hl m
  | 0x33 => c.op_inc_sp m
  | 0x0B => c.op_dec_bc m
  | 0x1B => c.op_dec_de m
  | 0x2B => c.op_dec_hl m
  | 0x3B => c.op_dec_sp m
  | 0xC3 => c.op_jp_nn m
  | 0xC2 => c.op_jp_nz_nn m
  | 0xCA => c.op_jp_z_nn m
  | 0xD2 => c.op_jp_nc_nn m
  | 0xDA => c.op_jp_c_nn m
  | 0xCD => c.op_call_nn m
  | 0xC9 => c.op_ret m
  | 0xC5 => c.op_push_bc m
  | 0xD5 => c.op_push_de m
  | 0xE5 => c.op_push_hl m
  | 0xF5 => c.op_push_af m
  | 0xC1 => c.op_pop_bc m
  | 0xD1 => c.op_pop_de m
  | 0xE1 => c.op_pop_hl m
  | 0xF1 => c.op_pop_af m
  | 0xFB => c.op_ei m
  | 0xF3 => c.op_di m
  | _ => some (4, c, m)

/-- The CB table built by `CPU._build_cb_opcode_table`: only entries
0x40 + reg*8 + bit exist (note the reg-major layout of the source);
unknown CB opcodes default to 8 cycles. -/
def CPU.execute_cb_instruction (c : CPU) (m : Memory) (cb_opcode : Nat) : StepResult :=
  if 0x40 ≤ cb_opcode ∧ cb_opcode < 0x80 then
    let reg := (cb_opcode - 0x40) / 8
    let bit := (cb_opcode - 0x40) % 8
    match reg with
    | 0 => c.op_bit_b m bit
    | 1 => c.op_bit_c m bit
    | 2 => c.op_bit_d m bit
    | 3 => c.op_bit_e m bit
    | 4 => c.op_bit_h m bit
    | 5 => c.op_bit_l m bit
    | 6 => c.op_bit_hl m bit
    | _ => c.op_bit_a m bit
  else some (8, c, m)

/-- `CPU._execute_instruction`: CB prefix advances PC by one and
dispatches on the next byte, otherwise the primary table runs. -/
def CPU.execute_instruction (c : CPU) (m : Memory) : StepResult :=
  if c.current_opcode = 0xCB then
    let c := { c with regs := { c.regs with pc := c.regs.pc + 1 } }
    do
      let cb ← m.read_byte c.regs.pc
      c.execute_cb_instruction m cb
  else c.dispatch_opcode m

/-- `CPU._get_instruction_length`.  The 2-byte list omits opcode 0x3E
(LD A, n), exactly as in the source. -/
def CPU.get_instruction_length (opcode : Nat) : Nat :=
  if opcode = 0xCB then 2
  else if opcode ∈ [0xC4, 0xCC, 0xCD, 0xD4, 0xDC, 0xE4, 0xEC, 0xF4] then 3
  else if opcode ∈ [0xC9, 0xD9] then 1
  else if opcode ∈ [0xC3, 0xC2, 0xCA, 0xD2, 0xDA, 0xE2, 0xEA, 0xF2, 0xFA] then 3
  else if opcode ∈ [0x01, 0x11, 0x21, 0x31] then 3
  else if opcode ∈ [0x06, 0x0E, 0x16, 0x1E, 0x26, 0x2E, 0x36] then 2
  else 1

/-- `CPU.step`: fetch, execute, then advance PC by the table length and
accumulate cycles.  Returns the elapsed T-cycles. -/
def CPU.step (c : CPU) (m : Memory) : StepResult :=
  if c.halted then some (4, c, m)
  else do
    let opcode ← m.read_byte c.regs.pc
    let c := { c with current_opcode := opcode }
    let (cycles, c, m) ← c.execute_instruction m
    let c := { c with regs := { c.regs with
                 pc := c.regs.pc + CPU.get_instruction_length c.current_opcode,
                 cycles := c.regs.cycles + cycles } }
    some (cycles, c, m)

/-- The interrupt vector addresses of `InterruptHandler.interrupts`, in
dictionary insertion order (VBLANK, STAT, TIMER, SERIAL, JOYPAD). -/
def interruptVectors : List Nat := [0x40, 0x48, 0x50, 0x58, 0x60]

/-- `InterruptHandler.request_interrupt` for a known interrupt with
vector `address`: `self.memory.io[0x0F] |= (1 << bit)`. -/
def InterruptHandler.request_interrupt (m : Memory) (address : Nat) : Option Memory := do
  let bit := (address - 0x40) / 8
  let cur ← pyGet m.io 128 0x0F
  let f ← pySet m.io 128 0x0F (cur ||| (1 <<< bit))
  some { m with io := f }

/-- `InterruptHandler.get_enabled_interrupts`: `self.memory.io[0xFF]`.
The `io` list has 128 entries, so this access is out of bounds. -/
def InterruptHandler.get_enabled_interrupts (m : Memory) : Option Nat :=
  pyGet m.io 128 0xFF

/-- `InterruptHandler.get_interrupt_flags`: `self.memory.io[0x0F]`. -/
def InterruptHandler.get_interrupt_flags (m : Memory) : Option Nat :=
  pyGet m.io 128 0x0F

/-- `InterruptHandler._execute_interrupt`: clear IME, clear the IF bit,
push PC, jump to the vector. -/
def InterruptHandler.execute_interrupt (c : CPU) (m : Memory) (address : Nat) :
    Option (CPU × Memory) := do
  let c := { c with ime := false }
  let bit := (address - 0x40) / 8
  let cur ← pyGet m.io 128 0x0F
  let f ← pySet m.io 128 0x0F (clearMask cur (1 <<< bit))
  let m := { m with io := f }
  let c := { c with regs := { c.regs with sp := c.regs.sp - 2 } }
  let m ← m.write_word c.regs.sp.toNat c.regs.pc
  let c := { c with regs := { c.regs with pc := address } }
  some (c, m)

/-- `InterruptHandler.handle_interrupts`: returns early when IME is
clear; otherwise reads IE from `io[0xFF]` and IF from `io[0x0F]` and
dispatches the first pending interrupt in priority order. -/
def InterruptHandler.handle_interrupts (c : CPU) (m : Memory) :
    Option (Bool × CPU × Memory) :=
  if ¬ c.ime then some (false, c, m)
  else do
    let ie ← InterruptHandler.get_enabled_interrupts m
    let iflags ← InterruptHandler.get_interrupt_flags m
    match interruptVectors.find? (fun address =>
        let bit := (address - 0x40) / 8
        (ie.land (1 <<< bit) ≠ 0) && (iflags.land (1 <<< bit) ≠ 0)) with
    | some address =>
        (InterruptHandler.execute_interrupt c m address).map
          (fun p => (true, p.1, p.2))
    | none => some (false, c, m)

/-- Timer state (class `Timer`).  `enabled` is set in the constructor
and never read by `step`. -/
structure Timer where
  div_counter : Nat
  tima_counter : Nat
  enabled : Bool

/-- `Timer.__init__`. -/
def Timer.init : Timer := ⟨0, 0, false⟩

/-- `Timer._increment_tima`: on 0xFF reload from TMA and request the
TIMER interrupt, otherwise increment. -/
def Timer.increment_tima (m : Memory) : Option Memory := do
  let tima ← pyGet m.io 128 0x05
  if tima = 0xFF then do
    let tma ← pyGet m.io 128 0x06
    let f ← pySet m.io 128 0x05 tma
    InterruptHandler.request_interrupt { m with io := f } 0x50
  else do
    let f ← pySet m.io 128 0x05 (tima + 1)
    some { m with io := f }

/-- `Timer.step`: DIV prescaler, then TIMA with the threshold
`4194304 // frequencies[TAC & 3]` where `frequencies = [1024, 16, 64,
256]`, exactly as in the source. -/
def Timer.step (t : Timer) (m : Memory) (cycles : Nat) : Option (Timer × Memory) := do
  let t := { t with div_counter := t.div_counter + cycles }
  let (t, m) ←
    if t.div_counter ≥ 256 then do
      let t := { t with div_counter := t.div_counter - 256 }
      let div ← pyGet m.io 128 0x04
      let f ← pySet m.io 128 0x04 ((div + 1).land 0xFF)
      some (t, { m with io := f })
    else some (t, m)
  let tac ← pyGet m.io 128 0x07
  if tac.land 0x04 ≠ 0 then do
    let t := { t with tima_counter := t.tima_counter + cycles }
    let tac2 ← pyGet m.io 128 0x07
    let clock_select := tac2.land 0x03
    let frequencies : List Nat := [1024, 16, 64, 256]
    let freq ← frequencies.get? clock_select
    let threshold := 4194304 / freq
    if t.tima_counter ≥ threshold then do
      let t := { t with tima_counter := t.tima_counter - threshold }
      let m ← Timer.increment_tima m
      some (t, m)
    else some (t, m)
  else some (t, m)

/-- PPU state (class `PPU` in src/gpu/ppu.py).  The 144 x 160 frame
buffer of two-bit shades is a curried function (row, column); the three
four-entry palette lists are functions from color index.  `window_x` is
`WX - 7` and can be negative in Python, hence `Int`.  The dead `oam`
list attribute (initialised to `[]`, never used) is not carried. -/
structure PPU where
  mode : Nat
  mode_clock : Nat
  line : Nat
  frame_buffer : Nat → Nat → Nat
  scroll_x : Nat
  scroll_y : Nat
  window_x : Int
  window_y : Nat
  bg_palette : Nat → Nat
  obj_palette0 : Nat → Nat
  obj_palette1 : Nat → Nat
  lcd_enabled : Bool
  window_enabled : Bool
  obj_enabled : Bool
  bg_enabled : Bool
  vram_bank : Nat

/-- `PPU.__init__`: mode 0, line 0, zeroed frame buffer, identity
palettes `[0, 1, 2, 3]`, control flags false. -/
def PPU.init : PPU where
  mode := 0
  mode_clock := 0
  line := 0
  frame_buffer := fun _ _ => 0
  scroll_x := 0
  scroll_y := 0
  window_x := 0
  window_y := 0
  bg_palette := fun i => i
  obj_palette0 := fun i => i
  obj_palette1 := fun i => i
  lcd_enabled := false
  window_enabled := false
  obj_enabled := false
  bg_enabled := false
  vram_bank := 0

/-- `PPU._update_control_flags`: refresh the four flags from LCDC. -/
def PPU.update_control_flags (p : PPU) (m : Memory) : PPU :=
  let lcdc := m.get_io_register 0xFF40
  { p with lcd_enabled := lcdc.land 0x80 ≠ 0,
           window_enabled := lcdc.land 0x20 ≠ 0,
           obj_enabled := lcdc.land 0x02 ≠ 0,
           bg_enabled := lcdc.land 0x01 ≠ 0 }

/-- `PPU.reset`: zero the mode machine and buffers, then
`_update_control_flags` (reading the memory the PPU references). -/
def PPU.reset (p : PPU) (m : Memory) : PPU :=
  ({ p with mode := 0, mode_clock := 0, line := 0,
            frame_buffer := fun _ _ => 0,
            scroll_x := 0, scroll_y := 0,
            window_x := 0, window_y := 0 }).update_control_flags m

/-- `PPU._update_palettes`: decode BGP/OBP0/OBP1 into the four-entry
shade maps (entry `i` is `(reg >> 2*i) & 3`). -/
def PPU.update_palettes (p : PPU) (m : Memory) : PPU :=
  let bgp := m.get_io_register 0xFF47
  let obp0 := m.get_io_register 0xFF48
  let obp1 := m.get_io_register 0xFF49
  { p with bg_palette := fun i => (bgp >>> (2 * i)).land 3,
           obj_palette0 := fun i => (obp0 >>> (2 * i)).land 3,
           obj_palette1 := fun i => (obp1 >>> (2 * i)).land 3 }

/-- `self.frame_buffer[line][x] = v`. -/
def PPU.setPixel (p : PPU) (line x v : Nat) : PPU :=
  { p with frame_buffer := fun i j =>
      if i = line ∧ j = x then v else p.frame_buffer i j }

/-- `PPU._request_vblank_interrupt`: read-modify-write of "IF" through
`get_io_register`/`set_io_register` with address 0x0F.  That address is
outside the accepted 0xFF00-0xFF7F window of both helpers, so the read
yields 0 and the write is dropped. -/
def PPU.request_vblank_interrupt (m : Memory) : Memory :=
  let if_reg := m.get_io_register 0x0F
  m.set_io_register 0x0F (if_reg ||| 0x01)

/-- One iteration of the x-loop of `PPU._render_background_line`. -/
def PPU.render_bg_pixel (p : PPU) (m : Memory) (line x : Nat) : Option PPU := do
  let tile_y := (line + p.scroll_y) >>> 3
  let tile_y_offset := (line + p.scroll_y).land 7
  let tile_x := (x + p.scroll_x) >>> 3
  let tile_x_offset := (x + p.scroll_x).land 7
  let bg_map_base := if (m.get_io_register 0xFF40).land 0x08 ≠ 0 then 0x9800 else 0x9C00
  let tile_number ← m.read_byte (bg_map_base + (tile_y <<< 5) + tile_x)
  let tile_data_base := if (m.get_io_register 0xFF40).land 0x10 ≠ 0 then 0x8000 else 0x8800
  let tn : Int :=
    if tile_data_base = 0x8800 then ((tile_number ^^^ 0x80 : Nat) : Int) - 128
    else (tile_number : Int)
  let tile_address : Int := tile_data_base + tn * 16 + ((tile_y_offset <<< 1 : Nat) : Int)
  let byte1 ← m.read_byte tile_address.toNat
  let byte2 ← m.read_byte (tile_address + 1).toNat
  let bit_pos := 7 - tile_x_offset
  let color_bit1 := (byte1 >>> bit_pos).land 1
  let color_bit2 := (byte2 >>> bit_pos).land 1
  let color_index := (color_bit2 <<< 1) ||| color_bit1
  some (p.setPixel line x (p.bg_palette color_index))

/-- Fold of `render_bg_pixel` over a list of x coordinates. -/
def PPU.render_bg_pixels (m : Memory) (line : Nat) :
    PPU → List Nat → Option PPU
  | p, [] => some p
  | p, x :: xs => do
      let p ← p.render_bg_pixel m line x
      PPU.render_bg_pixels m line p xs

/-- `PPU._render_background_line`: the x-loop over 0..159. -/
def PPU.render_background_line (p : PPU) (m : Memory) (line : Nat) : Option PPU :=
  PPU.render_bg_pixels m line p (List.range 160)

/-- One iteration of the x-loop of `PPU._render_window_line`.  The skip
guard merges the loop lower bound `max(0, window_x)` with the redundant
in-loop `continue` for `x < window_x`. -/
def PPU.render_window_pixel (p : PPU) (m : Memory) (line x : Nat) : Option PPU :=
  if (x : Int) < p.window_x then some p
  else do
    let window_tile_y := (line - p.window_y) >>> 3
    let window_tile_x := ((x : Int) - p.window_x).toNat >>> 3
    let tile_x_offset := ((x : Int) - p.window_x).toNat.land 7
    let tile_y_offset := (line - p.window_y).land 7
    let window_map_base := if (m.get_io_register 0xFF40).land 0x40 ≠ 0 then 0x9800 else 0x9C00
    let tile_number ← m.read_byte (window_map_base + (window_tile_y <<< 5) + window_tile_x)
    let tile_data_base := if (m.get_io_register 0xFF40).land 0x10 ≠ 0 then 0x8000 else 0x8800
    let tn : Int :=
      if tile_data_base = 0x8800 then ((tile_number ^^^ 0x80 : Nat) : Int) - 128
      else (tile_number : Int)
    let tile_address : Int := tile_data_base + tn * 16 + ((tile_y_offset <<< 1 : Nat) : Int)
    let byte1 ← m.read_byte tile_address.toNat
    let byte2 ← m.read_byte (tile_address + 1).toNat
    let bit_pos := 7 - tile_x_offset
    let color_bit1 := (byte1 >>> bit_pos).land 1
    let color_bit2 := (byte2 >>> bit_pos).land 1
    let color_index := (color_bit2 <<< 1) ||| color_bit1
    some (p.setPixel line x (p.bg_palette color_index))

/-- Fold of `render_window_pixel` over a list of x coordinates. -/
def PPU.render_window_pixels (m : Memory) (line : Nat) :
    PPU → List Nat → Option PPU
  | p, [] => some p
  | p, x :: xs => do
      let p ← p.render_window_pixel m line x
      PPU.render_window_pixels m line p xs

/-- `PPU._render_window_line`. -/
def PPU.render_window_line (p : PPU) (m : Memory) (line : Nat) : Option PPU :=
  if ¬ p.window_enabled ∨ line < p.window_y then some p
  else PPU.render_window_pixels m line p (List.range 160)

/-- The sprite-selection loop of `PPU._render_sprites_line`: scan OAM
entries in order, keep those covering `line`, stop once 10 are kept. -/
def PPU.collect_sprites (m : Memory) (line obj_size : Nat) :
    List Nat → List Nat → Option (List Nat)
  | [], acc => some acc
  | i :: rest, acc => do
      let sy ← m.read_byte (0xFE00 + i * 4)
      let _sx ← m.read_byte (0xFE00 + i * 4 + 1)
      let sprite_y : Int := (sy : Int) - 16
      if sprite_y ≤ (line : Int) ∧ (line : Int) < sprite_y + obj_size then
        let acc := acc ++ [i]
        if acc.length ≥ 10 then some acc
        else PPU.collect_sprites m line obj_size rest acc
      else PPU.collect_sprites m line obj_size rest acc

/-- Stable insertion keeping earlier elements with equal keys first
(the Python `list.sort(key=...)` is stable and ascending). -/
def stableInsertByKey (q : Nat × Nat) : List (Nat × Nat) → List (Nat × Nat)
  | [] => [q]
  | r :: rest => if r.1 ≤ q.1 then r :: stableInsertByKey q rest else q :: r :: rest

/-- Stable ascending sort of (key, payload) pairs. -/
def sortByKey (l : List (Nat × Nat)) : List (Nat × Nat) :=
  l.foldl (fun acc q => stableInsertByKey q acc) []

/-- The pixel loop (x in 0..7) of `PPU._render_single_sprite`; all
memory reads are done, so this part is pure. -/
def PPU.sprite_pixels (p : PPU) (line : Nat) (sprite_x : Int)
    (attributes byte1 byte2 : Nat) : PPU :=
  (List.range 8).foldl (fun p x =>
    let tile_x := if attributes.land 0x20 ≠ 0 then 7 - x else x
    let bit_pos := 7 - tile_x
    let color_bit1 := (byte1 >>> bit_pos).land 1
    let color_bit2 := (byte2 >>> bit_pos).land 1
    let color_index := (color_bit2 <<< 1) ||| color_bit1
    if color_index = 0 then p
    else
      let screen_x : Int := sprite_x + x
      if screen_x < 0 ∨ 160 ≤ screen_x then p
      else
        let pixel_color :=
          if attributes.land 0x10 ≠ 0 then p.obj_palette1 color_index
          else p.obj_palette0 color_index
        if attributes.land 0x80 ≠ 0 ∧ p.frame_buffer line screen_x.toNat ≠ 0 then p
        else p.setPixel line screen_x.toNat pixel_color) p

/-- `PPU._render_single_sprite`. -/
def PPU.render_single_sprite (p : PPU) (m : Memory) (line i : Nat) : Option PPU := do
  let base_addr := 0xFE00 + i * 4
  let sy ← m.read_byte base_addr
  let sx ← m.read_byte (base_addr + 1)
  let tile_number ← m.read_byte (base_addr + 2)
  let attributes ← m.read_byte (base_addr + 3)
  let sprite_y : Int := (sy : Int) - 16
  let sprite_x : Int := (sx : Int) - 8
  let obj_size : Nat := if (m.get_io_register 0xFF40).land 0x04 ≠ 0 then 16 else 8
  if (line : Int) < sprite_y ∨ sprite_y + obj_size ≤ (line : Int) then some p
  else
    let tile_y : Int := (line : Int) - sprite_y
    let tile_y : Int :=
      if attributes.land 0x40 ≠ 0 then (obj_size : Int) - 1 - tile_y else tile_y
    let ty : Nat := tile_y.toNat
    let tile_address : Nat :=
      if obj_size = 16 then
        let ta := 0x8000 + (tile_number.land 0xFE) * 16 + (ty.land 7) * 2
        if 8 ≤ ty then ta + 16 else ta
      else 0x8000 + tile_number * 16 + ty * 2
    do
      let byte1 ← m.read_byte tile_address
      let byte2 ← m.read_byte (tile_address + 1)
      some (p.sprite_pixels line sprite_x attributes byte1 byte2)

/-- Fold of `render_single_sprite` over the selected sprite indices. -/
def PPU.render_sprites (m : Memory) (line : Nat) :
    PPU → List Nat → Option PPU
  | p, [] => some p
  | p, i :: rest => do
      let p ← p.render_single_sprite m line i
      PPU.render_sprites m line p rest

/-- `PPU._render_sprites_line`: select up to 10 sprites in OAM order,
stable-sort them by their X byte, render each. -/
def PPU.render_sprites_line (p : PPU) (m : Memory) (line : Nat) : Option PPU :=
  if ¬ p.obj_enabled then some p
  else do
    let obj_size : Nat := if (m.get_io_register 0xFF40).land 0x04 ≠ 0 then 16 else 8
    let sprites_on_line ← PPU.collect_sprites m line obj_size (List.range 40) []
    let keyed ← sprites_on_line.mapM
      (fun i => (m.read_byte (0xFE00 + i * 4 + 1)).map (fun k => (k, i)))
    PPU.render_sprites m line p ((sortByKey keyed).map (fun q => q.2))

/-- `PPU._render_scanline`: refresh scroll/window registers and
palettes, then render background, window, sprites in that order. -/
def PPU.render_scanline (p : PPU) (m : Memory) (line : Nat) : Option PPU :=
  if ¬ p.bg_enabled ∧ ¬ p.window_enabled then some p
  else
    let p := { p with scroll_x := m.get_io_register 0xFF43,
                      scroll_y := m.get_io_register 0xFF42,
                      window_x := (m.get_io_register 0xFF4B : Int) - 7,
                      window_y := m.get_io_register 0xFF4A }
    let p := p.update_palettes m
    do
      let p ← if p.bg_enabled then p.render_background_line m line else some p
      let p ← if p.window_enabled ∧ p.window_y ≤ line then p.render_window_line m line
              else some p
      if p.obj_enabled then p.render_sprites_line m line else some p

/-- `PPU.step`: refresh control flags, bail out if the LCD is off,
accumulate the dot clock and run one mode transition.  The frame
callback fired on VBlank entry does not touch core state and is not
modelled. -/
def PPU.step (p : PPU) (m : Memory) (cycles : Nat) : Option (PPU × Memory) :=
  let p := p.update_control_flags m
  if ¬ p.lcd_enabled then some (p, m)
  else
    let p := { p with mode_clock := p.mode_clock + cycles }
    if p.mode = 0 then
      if 204 ≤ p.mode_clock then
        let p := { p with mode_clock := 0, line := p.line + 1 }
        if p.line = 144 then
          some ({ p with mode := 1 }, PPU.request_vblank_interrupt m)
        else some ({ p with mode := 2 }, m)
      else some (p, m)
    else if p.mode = 1 then
      if 456 ≤ p.mode_clock then
        let p := { p with mode_clock := 0, line := p.line + 1 }
        if 153 < p.line then some ({ p with line := 0, mode := 2 }, m)
        else some (p, m)
      else some (p, m)
    else if p.mode = 2 then
      if 80 ≤ p.mode_clock then some ({ p with mode_clock := 0, mode := 3 }, m)
      else some (p, m)
    else if p.mode = 3 then
      if 172 ≤ p.mode_clock then
        let p := { p with mode_clock := 0, mode := 0 }
        if p.line < 144 then (p.render_scanline m p.line).map (fun p => (p, m))
        else some (p, m)
      else some (p, m)
    else some (p, m)

/-- The emulator aggregate (class `GameboyEmulator`).  The APU and the
input manager are pure peripherals none of the checked claims touch;
their state is omitted here, and `reset` on them only re-zeroes that
omitted state. -/
structure GameboyEmulator where
  memory : Memory
  cpu : CPU
  ppu : PPU
  timer : Timer
  frame_count : Nat
  cycle_count : Nat

/-- `GameboyEmulator.__init__`. -/
def GameboyEmulator.init : GameboyEmulator :=
  ⟨Memory.init, CPU.init, PPU.init, Timer.init, 0, 0⟩

/-- `GameboyEmulator.reset`: memory reset, then CPU reset (zeroing all
registers), then PPU reset against the freshly reset memory, then the
frame and cycle counters. -/
def GameboyEmulator.reset (e : GameboyEmulator) : GameboyEmulator :=
  let memory := e.memory.reset
  { e with memory := memory,
           cpu := e.cpu.reset,
           ppu := e.ppu.reset memory,
           frame_count := 0,
           cycle_count := 0 }

/-- `Cartridge._parse_header` entry `header_checksum`: byte 0x14D when
the image is long enough, else the dictionary default 0. -/
def Cartridge.header_checksum (rom_data : List Nat) : Nat :=
  if rom_data.length < 0x150 then 0 else rom_data.getD 0x14D 0

/-- `Cartridge.validate_checksum`: fold `checksum = (checksum - byte -
1) & 0xFF` over addresses 0x134..0x14C and compare with the header
checksum byte. -/
def Cartridge.validate_checksum (rom_data : List Nat) : Bool :=
  if rom_data.length < 0x150 then false
  else
    let checksum := (List.range' 0x134 0x19).foldl
      (fun checksum i => byteOf ((checksum : Int) - (rom_data.getD i 0 : Int) - 1)) 0
    checksum == Cartridge.header_checksum rom_data

/-- The checksum formula exactly as the specification words it:
`((sum over 0x134..0x14C of ~byte) - 12) & 0xFF`, with `~` the Python
complement `-byte - 1`.  This definition follows the spec, not the
source, and is compared against `Cartridge.validate_checksum`. -/
def specHeaderChecksumFormula (rom_data : List Nat) : Nat :=
  (((((List.range' 0x134 0x19).map
        (fun i => -((rom_data.getD i 0 : Int)) - 1)).sum) - 12) % 256).toNat

/-- The same spec formula with the spurious `- 12` removed:
`(sum over 0x134..0x14C of ~byte) & 0xFF`.  This is the amended claim
formula, again written from the spec words. -/
def specHeaderChecksumFormulaAmended (rom_data : List Nat) : Nat :=
  ((((List.range' 0x134 0x19).map
        (fun i => -((rom_data.getD i 0 : Int)) - 1)).sum) % 256).toNat

/-! Concrete scenario states used by the claim theorems. -/

/-- Scenario for C1: IF = 0x01 and IE = 0x01 installed through the bus. -/
def c1mem : Option Memory := do
  let m ← Memory.init.write_byte 0xFF0F 0x01
  m.write_byte 0xFFFF 0x01

/-- Scenario for C1: CPU with IME set, PC in work RAM, SP = 0xC200. -/
def c1cpu : CPU :=
  { CPU.init with ime := true,
                  regs := { Registers.init with pc := 0xC100, sp := 0xC200 } }

/-- Scenario for C2: opcode 0xF1 (POP AF) at 0xC100, stack word 0x121F
at 0xC200. -/
def c2mem : Option Memory := do
  let m ← Memory.init.write_byte 0xC100 0xF1
  let m ← m.write_byte 0xC200 0x1F
  m.write_byte 0xC201 0x12

/-- Scenario for C2: CPU about to execute the POP AF. -/
def c2cpu : CPU :=
  { CPU.init with regs := { Registers.init with pc := 0xC100, sp := 0xC200 } }

/-- Scenario for C2: the step result. -/
def c2res : StepResult := c2mem.bind (fun m => CPU.step c2cpu m)

/-- Scenario for C3: IF cleared to 0; LCDC keeps its default 0x91
(LCD on). -/
def c3mem : Option Memory := Memory.init.write_byte 0xFF0F 0x00

/-- Scenario for C3: PPU in HBlank at the end of line 143. -/
def c3ppu : PPU := { PPU.init with mode := 0, mode_clock := 0, line := 143 }

/-- Scenario for C3: step the PPU by 204 dots across the HBlank
boundary into line 144. -/
def c3res : Option (PPU × Memory) := c3mem.bind (fun m => PPU.step c3ppu m 204)

/-- Scenario for C4: ROM bytes 0x3E 0x42 at 0x0100-0x0101. -/
def c4mem : Memory :=
  { Memory.init with
      rom := fun a => if a = 0x100 then 0x3E else if a = 0x101 then 0x42 else 0 }

/-- Scenario for C4: CPU at the ROM entry point. -/
def c4cpu : CPU :=
  { CPU.init with regs := { Registers.init with pc := 0x100, sp := 0xFFFE } }

/-- Scenario for C5: TAC = 0x05, TIMA = 0xFF, TMA = 0x10, IF = 0. -/
def c5mem : Option Memory := do
  let m ← Memory.init.write_byte 0xFF07 0x05
  let m ← m.write_byte 0xFF05 0xFF
  let m ← m.write_byte 0xFF06 0x10
  m.write_byte 0xFF0F 0x00

/-- Scenario for C5: a fresh timer stepped by 16 T-cycles. -/
def c5res : Option (Timer × Memory) := c5mem.bind (fun m => Timer.step Timer.init m 16)

/-- Scenario for C6: an MBC1 cartridge mapped. -/
def c6mem : Memory := { Memory.init with mbc_type := MBCType.mbc1 }

/-- Scenario for C6: RAM-enable write 0x0A to 0x0000, then a data write
0x42 to 0xA000. -/
def c6res : Option Memory := do
  let m ← c6mem.write_byte 0x0000 0x0A
  m.write_byte 0xA000 0x42

/-- Scenario for C7: a boot ROM is loaded (constant byte 0xAB) and the
overlay is active. -/
def c7mem : Memory :=
  { Memory.init with boot_rom := some (fun _ => 0xAB), boot_rom_enabled := true }

/-! Claim theorems. -/

/-- C1: the claim says that with IME=1, IF=0x01, IE=0x01 interrupt
dispatch clears IME and IF bit 0, pushes PC, jumps to 0x0040 and adds
20 T-cycles to the frame total.  On this code `handle_interrupts`
instead fails before dispatching anything: `get_enabled_interrupts`
indexes `io[0xFF]` on the 128-entry io list (an `IndexError`, i.e.
`none` here) for every memory state; with IME clear the handler returns
without dispatching. -/
theorem C1_interrupt_dispatch_raises :
    (c1mem.bind (fun m => InterruptHandler.handle_interrupts c1cpu m)) = none ∧
    (∀ m : Memory, InterruptHandler.get_enabled_interrupts m = none) ∧
    (c1mem.bind (fun m =>
        InterruptHandler.handle_interrupts { c1cpu with ime := false } m)).map
      (fun r => r.1) = some false := by
  refine ⟨rfl, ?_, rfl⟩
  intro m
  simp [InterruptHandler.get_enabled_interrupts, pyGet]

/-- C2: the claim says the low 4 bits of F are zero after every
instruction, including POP AF.  Executing POP AF (opcode 0xF1) with the
stack word 0x121F yields 12 cycles, A = 0x12 and F = 0x1F: the `af`
setter stores the full low byte, so the low nibble of F is 0xF, not 0. -/
theorem C2_pop_af_low_nibble :
    c2res.map (fun r => (r.1, r.2.1.regs.a, r.2.1.regs.f)) = some (12, 0x12, 0x1F) ∧
    (0x1F : Nat).land 0xF ≠ 0 := by
  exact ⟨rfl, by decide⟩

/-- C3: the claim says the VBlank interrupt is requested exactly once
per entry into scanline 144.  Stepping the PPU from the end of line 143
into line 144 (LCD on, IF previously 0) leaves IF bit 0 clear:
`_request_vblank_interrupt` goes through `get_io_register` /
`set_io_register` with address 0x0F, which both reject addresses
outside 0xFF00-0xFF7F, so the request is a no-op on every memory
state. -/
theorem C3_vblank_request_noop :
    c3res.map (fun r => (r.1.line, r.1.mode, (r.2.io 0x0F).land 0x01))
      = some (144, 1, 0) ∧
    (∀ m : Memory, PPU.request_vblank_interrupt m = m) := by
  refine ⟨rfl, ?_⟩
  intro m
  simp [PPU.request_vblank_interrupt, Memory.set_io_register]

/-- C4: the claim says one step on `3E 42` at PC=0x0100 returns 8
cycles with A=0x42 and PC=0x0102.  The code returns 8 cycles and
A=0x42 but PC=0x0101: `_get_instruction_length` omits opcode 0x3E from
its 2-byte list, so PC advances by only one byte. -/
theorem C4_ld_a_n_pc :
    (CPU.step c4cpu c4mem).map (fun r => (r.1, r.2.1.regs.a, r.2.1.regs.pc))
      = some (8, 0x42, 0x101) ∧
    (0x101 : Nat) ≠ 0x102 := by
  exact ⟨rfl, by decide⟩

/-- C5: the claim says that with TAC=0x05 the TIMA increment threshold
is 16 T-cycles, so TIMA=0xFF reloads to TMA=0x10 with IF bit 2 set
after 16 cycles.  The code computes `threshold = 4194304 // 16 =
262144`, so after 16 cycles TIMA is still 0xFF and IF bit 2 is clear. -/
theorem C5_timer_threshold :
    c5res.map (fun r => (r.1.tima_counter, r.2.io 0x05, (r.2.io 0x0F).land 0x04))
      = some (16, 0xFF, 0) ∧
    (0xFF : Nat) ≠ 0x10 := by
  exact ⟨rfl, by decide⟩

/-- C6: the claim says that after the MBC1 RAM-enable write (0x0A to
0x0000) a write8/read8 round trip at 0xA000 returns the written byte.
The enable write does set `ram_enabled` and allocates the 8 KiB RAM,
but `_read_cart_ram`/`_write_cart_ram` gate on the distinct
`cart_ram_enabled` flag, which no code path ever sets, so the write is
dropped and the read returns 0xFF. -/
theorem C6_cart_ram_gate :
    (c6res.bind (fun m => m.read_byte 0xA000)) = some 0xFF ∧
    c6res.map (fun m => (m.ram_enabled, m.cart_ram_enabled, m.cart_ram_len))
      = some (true, false, 0x2000) ∧
    (0xFF : Nat) ≠ 0x42 := by
  exact ⟨rfl, rfl, by decide⟩

/-- `_handle_ram_enable` never touches the boot-ROM latch. -/
lemma handle_ram_enable_boot (m : Memory) (v : Nat) :
    (m.handle_ram_enable v).boot_rom_enabled = m.boot_rom_enabled := by
  simp only [Memory.handle_ram_enable]
  split_ifs <;> rfl

/-- `_handle_rom_bank_change` never touches the boot-ROM latch. -/
lemma handle_rom_bank_change_boot (m : Memory) (v : Nat) :
    (m.handle_rom_bank_change v).boot_rom_enabled = m.boot_rom_enabled := by
  simp only [Memory.handle_rom_bank_change]
  split_ifs <;> rfl

/-- `_handle_ram_bank_change` never touches the boot-ROM latch. -/
lemma handle_ram_bank_change_boot (m : Memory) (v : Nat) :
    (m.handle_ram_bank_change v).boot_rom_enabled = m.boot_rom_enabled := by
  simp only [Memory.handle_ram_bank_change]
  split_ifs <;> rfl

/-- `_write_cart_ram` never touches the boot-ROM latch. -/
lemma write_cart_ram_boot (m : Memory) (a v : Nat) :
    (m.write_cart_ram a v).boot_rom_enabled = m.boot_rom_enabled := by
  simp only [Memory.write_cart_ram]
  split_ifs <;> rfl

/-- `_write_io_register` can only clear the boot-ROM latch, never set
it. -/
lemma write_io_register_boot (m : Memory) (a v : Nat) (m' : Memory)
    (hb : m.boot_rom_enabled = false) (h : m.write_io_register a v = some m') :
    m'.boot_rom_enabled = false := by
  simp only [Memory.write_io_register] at h
  split_ifs at h with h1 h2 h3 h4 h5
  · have hm := Option.some.inj h
    subst hm
    rfl
  · have hm := Option.some.inj h
    subst hm
    exact hb
  · have hm := Option.some.inj h
    subst hm
    exact hb
  · rcases Option.map_eq_some'.1 h with ⟨f, _, hm⟩
    subst hm
    exact hb
  · have hm := Option.some.inj h
    subst hm
    exact hb
  · rcases Option.map_eq_some'.1 h with ⟨f, _, hm⟩
    subst hm
    exact hb

/-- C7 counterexample: the claim says every nonzero value written to
0xFF50 disables the overlay.  Writing 0x02 (nonzero, but bit 0 clear)
leaves the latch enabled and reads of 0x0000 still hit the boot ROM
byte 0xAB rather than ROM bank 0. -/
theorem C7_counterexample :
    (c7mem.write_byte 0xFF50 2).map Memory.boot_rom_enabled = some true ∧
    ((c7mem.write_byte 0xFF50 2).bind (fun m => m.read_byte 0x0000)) = some 0xAB ∧
    (2 : Int) ≠ 0 := by
  exact ⟨rfl, rfl, by decide⟩

/-- C7 amended: writing a value with bit 0 set to 0xFF50 disables the
boot-ROM overlay, after which reads of 0x0000-0x00FF come from ROM
bank 0; and no `write_byte` can re-enable a disabled overlay. -/
theorem C7_boot_rom_latch :
    (∀ (m : Memory) (v : Int) (m' : Memory),
        (byteOf v).land 1 ≠ 0 →
        m.write_byte 0xFF50 v = some m' →
        m'.boot_rom_enabled = false ∧
          ∀ a : Nat, a < 0x100 → m'.read_byte a = some (m'.rom a)) ∧
    (∀ (m : Memory) (a : Nat) (v : Int) (m' : Memory),
        m.boot_rom_enabled = false →
        m.write_byte a v = some m' →
        m'.boot_rom_enabled = false) := by
  constructor
  · intro m v m' hv hw
    have hio : (if (byteOf v).land 1 ≠ 0 then { m with boot_rom_enabled := false }
        else m) = m' := Option.some.inj hw
    rw [if_pos hv] at hio
    subst hio
    refine ⟨rfl, ?_⟩
    intro a ha
    unfold Memory.read_byte
    rw [if_neg (by simp)]
    rw [if_pos (by omega)]
    unfold pyGet
    rw [if_pos (by omega)]
  · intro m a v m' hb hw
    unfold Memory.write_byte at hw
    by_cases h1 : a < 0x2000
    · rw [if_pos h1] at hw
      have hm := Option.some.inj hw
      subst hm
      rw [handle_ram_enable_boot]
      exact hb
    · rw [if_neg h1] at hw
      by_cases h2 : a < 0x4000
      · rw [if_pos h2] at hw
        have hm := Option.some.inj hw
        subst hm
        rw [handle_rom_bank_change_boot]
        exact hb
      · rw [if_neg h2] at hw
        by_cases h3 : a < 0x6000
        · rw [if_pos h3] at hw
          have hm := Option.some.inj hw
          subst hm
          rw [handle_ram_bank_change_boot]
          exact hb
        · rw [if_neg h3] at hw
          by_cases h4 : a < 0x8000
          · rw [if_pos h4] at hw
            have hm := Option.some.inj hw
            subst hm
            exact hb
          · rw [if_neg h4] at hw
            by_cases h5 : a < 0xA000
            · rw [if_pos h5] at hw
              rcases Option.map_eq_some'.1 hw with ⟨f, _, hm⟩
              subst hm
              exact hb
            · rw [if_neg h5] at hw
              by_cases h6 : a < 0xC000
              · rw [if_pos h6] at hw
                have hm := Option.some.inj hw
                subst hm
                rw [write_cart_ram_boot]
                exact hb
              · rw [if_neg h6] at hw
                by_cases h7 : a < 0xE000
                · rw [if_pos h7] at hw
                  rcases Option.map_eq_some'.1 hw with ⟨f, _, hm⟩
                  subst hm
                  exact hb
                · rw [if_neg h7] at hw
                  by_cases h8 : a < 0xFE00
                  · rw [if_pos h8] at hw
                    rcases Option.map_eq_some'.1 hw with ⟨f, _, hm⟩
                    subst hm
                    exact hb
                  · rw [if_neg h8] at hw
                    by_cases h9 : a < 0xFEA0
                    · rw [if_pos h9] at hw
                      rcases Option.map_eq_some'.1 hw with ⟨f, _, hm⟩
                      subst hm
                      exact hb
                    · rw [if_neg h9] at hw
                      by_cases h10 : a < 0xFF00
                      · rw [if_pos h10] at hw
                        have hm := Option.some.inj hw
                        subst hm
                        exact hb
                      · rw [if_neg h10] at hw
                        by_cases h11 : a < 0xFF80
                        · rw [if_pos h11] at hw
                          exact write_io_register_boot m a (byteOf v) m' hb hw
                        · rw [if_neg h11] at hw
                          by_cases h12 : a < 0xFFFF
                          · rw [if_pos h12] at hw
                            rcases Option.map_eq_some'.1 hw with ⟨f, _, hm⟩
                            subst hm
                            exact hb
                          · rw [if_neg h12] at hw
                            by_cases h13 : a = 0xFFFF
                            · rw [if_pos h13] at hw
                              have hm := Option.some.inj hw
                              subst hm
                              exact hb
                            · rw [if_neg h13] at hw
                              have hm := Option.some.inj hw
                              subst hm
                              exact hb

/-- C7 witness: writing 0x01 to 0xFF50 on the concrete boot-ROM state
disables the overlay. -/
theorem C7_boot_rom_latch_witness :
    ∃ m', c7mem.write_byte 0xFF50 1 = some m' ∧ m'.boot_rom_enabled = false :=
  ⟨{ c7mem with boot_rom_enabled := false }, rfl,
    (C7_boot_rom_latch.1 c7mem 1 { c7mem with boot_rom_enabled := false }
      (by decide) rfl).1⟩

/-- C8 counterexample: the claim says `reset()` restores A=0x01 when no
boot ROM is loaded.  Resetting the freshly constructed emulator (which
has no boot ROM) leaves A = 0, not 0x01. -/
theorem C8_counterexample :
    (GameboyEmulator.reset GameboyEmulator.init).cpu.regs.a ≠ 0x01 := by
  decide

/-- C8 amended: `reset()` zeroes every CPU register unconditionally
(A=F=0, BC=DE=HL=0, SP=0, PC=0), with no post-boot defaults. -/
theorem C8_reset_zeroes (e : GameboyEmulator) :
    (e.reset).cpu.regs.a = 0 ∧ (e.reset).cpu.regs.f = 0 ∧
    (e.reset).cpu.regs.b = 0 ∧ (e.reset).cpu.regs.c = 0 ∧
    (e.reset).cpu.regs.d = 0 ∧ (e.reset).cpu.regs.e = 0 ∧
    (e.reset).cpu.regs.h = 0 ∧ (e.reset).cpu.regs.l = 0 ∧
    (e.reset).cpu.regs.pc = 0 ∧ (e.reset).cpu.regs.sp = 0 :=
  ⟨rfl, rfl, rfl, rfl, rfl, rfl, rfl, rfl, rfl, rfl⟩

/-- C8 witness: the amended reset statement at the concrete emulator. -/
theorem C8_reset_zeroes_witness :
    (GameboyEmulator.init.reset).cpu.regs.a = 0 ∧
    (GameboyEmulator.init.reset).cpu.regs.f = 0 ∧
    (GameboyEmulator.init.reset).cpu.regs.b = 0 ∧
    (GameboyEmulator.init.reset).cpu.regs.c = 0 ∧
    (GameboyEmulator.init.reset).cpu.regs.d = 0 ∧
    (GameboyEmulator.init.reset).cpu.regs.e = 0 ∧
    (GameboyEmulator.init.reset).cpu.regs.h = 0 ∧
    (GameboyEmulator.init.reset).cpu.regs.l = 0 ∧
    (GameboyEmulator.init.reset).cpu.regs.pc = 0 ∧
    (GameboyEmulator.init.reset).cpu.regs.sp = 0 :=
  C8_reset_zeroes GameboyEmulator.init

/-- Concrete 0x150-byte ROM image for C9: header bytes all zero and the
checksum byte at 0x14D equal to 0xE7, the value the source computes. -/
def c9rom : List Nat := List.replicate 333 0 ++ [0xE7, 0, 0]

/-- The masked byte is always below 256. -/
lemma byteOf_lt (v : Int) : byteOf v < 256 := by
  unfold byteOf
  have h1 : 0 ≤ v % 256 := Int.emod_nonneg v (by norm_num)
  have h2 : v % 256 < 256 := Int.emod_lt_of_pos v (by norm_num)
  omega

/-- The source checksum fold equals the complement sum modulo 256. -/
lemma validate_foldl (l : List Nat) (c : Nat) (hc : c < 256) :
    l.foldl (fun (acc : Nat) (b : Nat) => byteOf ((acc : Int) - (b : Int) - 1)) c
      = ((((c : Int) + (l.map (fun (b : Nat) => -(b : Int) - 1)).sum) % 256)).toNat := by
  induction l generalizing c with
  | nil =>
      simp only [List.foldl_nil, List.map_nil, List.sum_nil, add_zero]
      have h1 : 0 ≤ (c : Int) := by positivity
      have h2 : (c : Int) < 256 := by exact_mod_cast hc
      rw [Int.emod_eq_of_lt h1 h2]
      exact (Int.toNat_natCast c).symm
  | cons b l ih =>
      simp only [List.foldl_cons, List.map_cons, List.sum_cons]
      rw [ih (byteOf (↑c - ↑b - 1)) (byteOf_lt _)]
      unfold byteOf
      have h1 : 0 ≤ ((c : Int) - (b : Int) - 1) % 256 :=
        Int.emod_nonneg _ (by norm_num)
      congr 1
      rw [Int.toNat_of_nonneg h1]
      conv_lhs => rw [Int.add_emod, Int.emod_emod_of_dvd _ dvd_rfl, ← Int.add_emod]
      congr 1
      ring

set_option maxRecDepth 40000 in
/-- C9 counterexample: the claim says `validate_checksum` returns true
iff `((sum of ~byte) - 12) & 0xFF` equals byte 0x14D.  On `c9rom` the
source returns true while the spec formula gives 0xDB, not the header
byte 0xE7, so the equivalence fails. -/
theorem C9_counterexample :
    ¬ (Cartridge.validate_checksum c9rom = true ↔
        specHeaderChecksumFormula c9rom = c9rom.getD 0x14D 0) := by
  decide

/-- C9 amended: for every image of length at least 0x150,
`validate_checksum` returns true iff `(sum of ~byte over 0x134..0x14C)
& 0xFF` (with no `- 12` term) equals the byte at 0x14D. -/
theorem C9_checksum_iff (rom_data : List Nat) (hlen : 0x150 ≤ rom_data.length) :
    (Cartridge.validate_checksum rom_data = true ↔
      specHeaderChecksumFormulaAmended rom_data = rom_data.getD 0x14D 0) := by
  unfold Cartridge.validate_checksum Cartridge.header_checksum
    specHeaderChecksumFormulaAmended
  rw [if_neg (by omega), if_neg (by omega)]
  have h := validate_foldl
    ((List.range' 0x134 0x19).map (fun i => rom_data.getD i 0)) 0 (by norm_num)
  rw [List.foldl_map] at h
  rw [h, List.map_map]
  simp only [Function.comp, Int.Nat.cast_ofNat_Int, zero_add]
  exact beq_iff_eq

set_option maxRecDepth 40000 in
/-- C9 witness: the amended equivalence instantiated at the concrete
image `c9rom`. -/
theorem C9_checksum_iff_witness :
    0x150 ≤ c9rom.length ∧
    (Cartridge.validate_checksum c9rom = true ↔
      specHeaderChecksumFormulaAmended c9rom = c9rom.getD 0x14D 0) :=
  ⟨by decide, C9_checksum_iff c9rom (by decide)⟩

/-! Memory-safety infrastructure for C10: an invariant on `Memory`
stating that every stored value is a byte, preserved by `write_byte`,
under which `read_byte` always succeeds with a byte. -/

/-- Every entry of the data function is a byte. -/
def ByteFun (g : Nat → Nat) : Prop := ∀ i, g i ≤ 255

/-- A successful `pyGet`. -/
lemma pyGet_lt {g : Nat → Nat} {len i : Nat} (h : i < len) :
    pyGet g len i = some (g i) := by
  simp [pyGet, h]

/-- A successful `pySet`. -/
lemma pySet_lt {g : Nat → Nat} {len i v : Nat} (h : i < len) :
    pySet g len i v = some (fun j => if j = i then v else g j) := by
  simp [pySet, h]

/-- Point updates with byte values preserve `ByteFun`. -/
lemma ByteFun.update {g : Nat → Nat} (hg : ByteFun g) {i v : Nat} (hv : v ≤ 255) :
    ByteFun (fun j => if j = i then v else g j) := by
  intro j
  dsimp only
  split_ifs
  · exact hv
  · exact hg j

/-- The masked byte is at most 255. -/
lemma byteOf_le (v : Int) : byteOf v ≤ 255 := by
  have := byteOf_lt v
  omega

/-- All stored data of a `Memory` state consists of bytes. -/
structure MemInv (m : Memory) : Prop where
  rom_b : ByteFun m.rom
  wram_b : ByteFun m.wram
  vram_b : ByteFun m.vram
  oam_b : ByteFun m.oam
  hram_b : ByteFun m.hram
  io_b : ByteFun m.io
  cart_b : ByteFun m.cart_ram
  ie_b : m.ie_register ≤ 255
  boot_b : ∀ br, m.boot_rom = some br → ByteFun br

/-- Every initial I/O register value is a byte. -/
lemma initIO_le (i : Nat) : initIO i ≤ 255 := by
  unfold initIO
  by_cases h0 : i = 0
  · rw [if_pos h0] <;> norm_num
  rw [if_neg h0]
  by_cases h1 : i = 1
  · rw [if_pos h1] <;> norm_num
  rw [if_neg h1]
  by_cases h2 : i = 2
  · rw [if_pos h2] <;> norm_num
  rw [if_neg h2]
  by_cases h3 : i = 4
  · rw [if_pos h3] <;> norm_num
  rw [if_neg h3]
  by_cases h4 : i = 5
  · rw [if_pos h4] <;> norm_num
  rw [if_neg h4]
  by_cases h5 : i = 6
  · rw [if_pos h5] <;> norm_num
  rw [if_neg h5]
  by_cases h6 : i = 7
  · rw [if_pos h6] <;> norm_num
  rw [if_neg h6]
  by_cases h7 : i = 15
  · rw [if_pos h7] <;> norm_num
  rw [if_neg h7]
  by_cases h8 : i = 16
  · rw [if_pos h8] <;> norm_num
  rw [if_neg h8]
  by_cases h9 : i = 17
  · rw [if_pos h9] <;> norm_num
  rw [if_neg h9]
  by_cases h10 : i = 18
  · rw [if_pos h10] <;> norm_num
  rw [if_neg h10]
  by_cases h11 : i = 19
  · rw [if_pos h11] <;> norm_num
  rw [if_neg h11]
  by_cases h12 : i = 20
  · rw [if_pos h12] <;> norm_num
  rw [if_neg h12]
  by_cases h13 : i = 64
  · rw [if_pos h13] <;> norm_num
  rw [if_neg h13]
  by_cases h14 : i = 65
  · rw [if_pos h14] <;> norm_num
  rw [if_neg h14]
  by_cases h15 : i = 66
  · rw [if_pos h15] <;> norm_num
  rw [if_neg h15]
  by_cases h16 : i = 67
  · rw [if_pos h16] <;> norm_num
  rw [if_neg h16]
  by_cases h17 : i = 68
  · rw [if_pos h17] <;> norm_num
  rw [if_neg h17]
  by_cases h18 : i = 69
  · rw [if_pos h18] <;> norm_num
  rw [if_neg h18]
  by_cases h19 : i = 71
  · rw [if_pos h19] <;> norm_num
  rw [if_neg h19]
  by_cases h20 : i = 72
  · rw [if_pos h20] <;> norm_num
  rw [if_neg h20]
  by_cases h21 : i = 73
  · rw [if_pos h21] <;> norm_num
  rw [if_neg h21]
  by_cases h22 : i = 74
  · rw [if_pos h22] <;> norm_num
  rw [if_neg h22]
  by_cases h23 : i = 75
  · rw [if_pos h23] <;> norm_num
  rw [if_neg h23]
  exact Nat.zero_le _

/-- The constructor state satisfies the invariant. -/
lemma init_inv : MemInv Memory.init := by
  refine ⟨?_, ?_, ?_, ?_, ?_, ?_, ?_, ?_, ?_⟩
  · intro i; exact Nat.zero_le _
  · intro i; exact Nat.zero_le _
  · intro i; exact Nat.zero_le _
  · intro i; exact Nat.zero_le _
  · intro i; exact Nat.zero_le _
  · intro i; exact initIO_le i
  · intro i; exact Nat.zero_le _
  · exact Nat.zero_le _
  · intro br h
    exact nomatch h

/-- `_read_rom_bank` always succeeds with a byte. -/
lemma read_rom_bank_total {m : Memory} (inv : MemInv m) (a : Nat) :
    ∃ v, m.read_rom_bank a = some v ∧ v ≤ 255 := by
  unfold Memory.read_rom_bank
  split_ifs with h1 h2 h3
  · exact ⟨_, pyGet_lt h2, inv.rom_b _⟩
  · exact ⟨0xFF, rfl, by norm_num⟩
  · exact ⟨_, pyGet_lt h3, inv.rom_b _⟩
  · exact ⟨0xFF, rfl, by norm_num⟩

/-- `_read_cart_ram` always succeeds with a byte. -/
lemma read_cart_ram_total {m : Memory} (inv : MemInv m) (a : Nat) :
    ∃ v, m.read_cart_ram a = some v ∧ v ≤ 255 := by
  unfold Memory.read_cart_ram
  split_ifs with h1 h2
  · exact ⟨0xFF, rfl, by norm_num⟩
  · exact ⟨_, pyGet_lt h2, inv.cart_b _⟩
  · exact ⟨0xFF, rfl, by norm_num⟩

/-- Under the invariant, `read_byte` succeeds with a byte at every
address (addresses above 0xFFFF fall into the warning branch, which
also returns 0xFF). -/
lemma read_byte_total {m : Memory} (inv : MemInv m) (a : Nat) :
    ∃ v, m.read_byte a = some v ∧ v ≤ 255 := by
  unfold Memory.read_byte
  by_cases h0 : a < 0x100 ∧ m.boot_rom_enabled ∧ m.boot_rom.isSome
  · rw [if_pos h0]
    obtain ⟨ha, -, hs⟩ := h0
    cases hbr : m.boot_rom with
    | none => simp [hbr] at hs
    | some br =>
        exact ⟨_, pyGet_lt (show a < 256 by omega), inv.boot_b br hbr _⟩
  · rw [if_neg h0]
    by_cases h1 : a < 0x4000
    · rw [if_pos h1]
      exact ⟨_, pyGet_lt (by omega), inv.rom_b _⟩
    · rw [if_neg h1]
      by_cases h2 : a < 0x8000
      · rw [if_pos h2]
        exact read_rom_bank_total inv a
      · rw [if_neg h2]
        by_cases h3 : a < 0xA000
        · rw [if_pos h3]
          exact ⟨_, pyGet_lt (show a - 0x8000 < 8192 by omega), inv.vram_b _⟩
        · rw [if_neg h3]
          by_cases h4 : a < 0xC000
          · rw [if_pos h4]
            exact read_cart_ram_total inv a
          · rw [if_neg h4]
            by_cases h5 : a < 0xE000
            · rw [if_pos h5]
              exact ⟨_, pyGet_lt (show a - 0xC000 < 8192 by omega), inv.wram_b _⟩
            · rw [if_neg h5]
              by_cases h6 : a < 0xFE00
              · rw [if_pos h6]
                exact ⟨_, pyGet_lt (show a - 0xE000 < 8192 by omega), inv.wram_b _⟩
              · rw [if_neg h6]
                by_cases h7 : a < 0xFEA0
                · rw [if_pos h7]
                  exact ⟨_, pyGet_lt (show a - 0xFE00 < 160 by omega), inv.oam_b _⟩
                · rw [if_neg h7]
                  by_cases h8 : a < 0xFF00
                  · rw [if_pos h8]
                    exact ⟨0xFF, rfl, by norm_num⟩
                  · rw [if_neg h8]
                    by_cases h9 : a < 0xFF80
                    · rw [if_pos h9]
                      exact ⟨_, pyGet_lt (show a - 0xFF00 < 128 by omega), inv.io_b _⟩
                    · rw [if_neg h9]
                      by_cases h10 : a < 0xFFFF
                      · rw [if_pos h10]
                        exact ⟨_, pyGet_lt (show a - 0xFF80 < 127 by omega),
                          inv.hram_b _⟩
                      · rw [if_neg h10]
                        by_cases h11 : a = 0xFFFF
                        · rw [if_pos h11]
                          exact ⟨_, rfl, inv.ie_b⟩
                        · rw [if_neg h11]
                          exact ⟨0xFF, rfl, by norm_num⟩

/-- `_handle_ram_enable` preserves the invariant. -/
lemma handle_ram_enable_inv {m : Memory} (inv : MemInv m) (v : Nat) :
    MemInv (m.handle_ram_enable v) := by
  unfold Memory.handle_ram_enable
  split_ifs
  · exact ⟨inv.rom_b, inv.wram_b, inv.vram_b, inv.oam_b, inv.hram_b, inv.io_b,
      fun i => Nat.zero_le _, inv.ie_b, inv.boot_b⟩
  · exact ⟨inv.rom_b, inv.wram_b, inv.vram_b, inv.oam_b, inv.hram_b, inv.io_b,
      inv.cart_b, inv.ie_b, inv.boot_b⟩
  · exact inv

/-- `_handle_rom_bank_change` preserves the invariant. -/
lemma handle_rom_bank_change_inv {m : Memory} (inv : MemInv m) (v : Nat) :
    MemInv (m.handle_rom_bank_change v) := by
  unfold Memory.handle_rom_bank_change
  split_ifs
  all_goals
    first
    | exact ⟨inv.rom_b, inv.wram_b, inv.vram_b, inv.oam_b, inv.hram_b, inv.io_b,
        inv.cart_b, inv.ie_b, inv.boot_b⟩
    | exact inv

/-- `_handle_ram_bank_change` preserves the invariant. -/
lemma handle_ram_bank_change_inv {m : Memory} (inv : MemInv m) (v : Nat) :
    MemInv (m.handle_ram_bank_change v) := by
  unfold Memory.handle_ram_bank_change
  split_ifs
  · exact ⟨inv.rom_b, inv.wram_b, inv.vram_b, inv.oam_b, inv.hram_b, inv.io_b,
      inv.cart_b, inv.ie_b, inv.boot_b⟩
  · exact inv

/-- `_write_cart_ram` preserves the invariant for byte values. -/
lemma write_cart_ram_inv {m : Memory} (inv : MemInv m) (a v : Nat) (hv : v ≤ 255) :
    MemInv (m.write_cart_ram a v) := by
  unfold Memory.write_cart_ram
  split_ifs
  · exact inv
  · exact ⟨inv.rom_b, inv.wram_b, inv.vram_b, inv.oam_b, inv.hram_b, inv.io_b,
      ByteFun.update inv.cart_b hv, inv.ie_b, inv.boot_b⟩
  · exact inv

/-- `_write_io_register` succeeds for addresses below 0xFF80 and
preserves the invariant for byte values. -/
lemma write_io_register_total {m : Memory} (inv : MemInv m) (a v : Nat)
    (hv : v ≤ 255) (ha : a < 0xFF80) :
    ∃ m', m.write_io_register a v = some m' ∧ MemInv m' := by
  unfold Memory.write_io_register
  split_ifs with h1 h2 h3 h4 h5
  · exact ⟨_, rfl, ⟨inv.rom_b, inv.wram_b, inv.vram_b, inv.oam_b, inv.hram_b,
      inv.io_b, inv.cart_b, inv.ie_b, inv.boot_b⟩⟩
  · exact ⟨m, rfl, inv⟩
  · exact ⟨m, rfl, inv⟩
  · rw [pySet_lt (show a - 0xFF00 < 128 by omega)]
    exact ⟨_, rfl, ⟨inv.rom_b, inv.wram_b, inv.vram_b, inv.oam_b, inv.hram_b,
      ByteFun.update inv.io_b (by norm_num), inv.cart_b, inv.ie_b, inv.boot_b⟩⟩
  · exact ⟨m, rfl, inv⟩
  · rw [pySet_lt (show a - 0xFF00 < 128 by omega)]
    exact ⟨_, rfl, ⟨inv.rom_b, inv.wram_b, inv.vram_b, inv.oam_b, inv.hram_b,
      ByteFun.update inv.io_b hv, inv.cart_b, inv.ie_b, inv.boot_b⟩⟩

/-- Under the invariant, `write_byte` succeeds at every address for an
arbitrary integer value, and the result satisfies the invariant. -/
lemma write_byte_total {m : Memory} (inv : MemInv m) (a : Nat) (v : Int) :
    ∃ m', m.write_byte a v = some m' ∧ MemInv m' := by
  unfold Memory.write_byte
  by_cases h1 : a < 0x2000
  · rw [if_pos h1]
    exact ⟨_, rfl, handle_ram_enable_inv inv _⟩
  · rw [if_neg h1]
    by_cases h2 : a < 0x4000
    · rw [if_pos h2]
      exact ⟨_, rfl, handle_rom_bank_change_inv inv _⟩
    · rw [if_neg h2]
      by_cases h3 : a < 0x6000
      · rw [if_pos h3]
        exact ⟨_, rfl, handle_ram_bank_change_inv inv _⟩
      · rw [if_neg h3]
        by_cases h4 : a < 0x8000
        · rw [if_pos h4]
          exact ⟨m, rfl, inv⟩
        · rw [if_neg h4]
          by_cases h5 : a < 0xA000
          · rw [if_pos h5, pySet_lt (show a - 0x8000 < 8192 by omega)]
            exact ⟨_, rfl, ⟨inv.rom_b, inv.wram_b,
              ByteFun.update inv.vram_b (byteOf_le _), inv.oam_b, inv.hram_b,
              inv.io_b, inv.cart_b, inv.ie_b, inv.boot_b⟩⟩
          · rw [if_neg h5]
            by_cases h6 : a < 0xC000
            · rw [if_pos h6]
              exact ⟨_, rfl, write_cart_ram_inv inv a _ (byteOf_le _)⟩
            · rw [if_neg h6]
              by_cases h7 : a < 0xE000
              · rw [if_pos h7, pySet_lt (show a - 0xC000 < 8192 by omega)]
                exact ⟨_, rfl, ⟨inv.rom_b,
                  ByteFun.update inv.wram_b (byteOf_le _), inv.vram_b,
                  inv.oam_b, inv.hram_b, inv.io_b, inv.cart_b, inv.ie_b,
                  inv.boot_b⟩⟩
              · rw [if_neg h7]
                by_cases h8 : a < 0xFE00
                · rw [if_pos h8, pySet_lt (show a - 0xE000 < 8192 by omega)]
                  exact ⟨_, rfl, ⟨inv.rom_b,
                    ByteFun.update inv.wram_b (byteOf_le _), inv.vram_b,
                    inv.oam_b, inv.hram_b, inv.io_b, inv.cart_b, inv.ie_b,
                    inv.boot_b⟩⟩
                · rw [if_neg h8]
                  by_cases h9 : a < 0xFEA0
                  · rw [if_pos h9, pySet_lt (show a - 0xFE00 < 160 by omega)]
                    exact ⟨_, rfl, ⟨inv.rom_b, inv.wram_b, inv.vram_b,
                      ByteFun.update inv.oam_b (byteOf_le _), inv.hram_b,
                      inv.io_b, inv.cart_b, inv.ie_b, inv.boot_b⟩⟩
                  · rw [if_neg h9]
                    by_cases h10 : a < 0xFF00
                    · rw [if_pos h10]
                      exact ⟨m, rfl, inv⟩
                    · rw [if_neg h10]
                      by_cases h11 : a < 0xFF80
                      · rw [if_pos h11]
                        exact write_io_register_total inv a (byteOf v)
                          (byteOf_le _) h11
                      · rw [if_neg h11]
                        by_cases h12 : a < 0xFFFF
                        · rw [if_pos h12,
                            pySet_lt (show a - 0xFF80 < 127 by omega)]
                          exact ⟨_, rfl, ⟨inv.rom_b, inv.wram_b, inv.vram_b,
                            inv.oam_b, ByteFun.update inv.hram_b (byteOf_le _),
                            inv.io_b, inv.cart_b, inv.ie_b, inv.boot_b⟩⟩
                        · rw [if_neg h12]
                          by_cases h13 : a = 0xFFFF
                          · rw [if_pos h13]
                            exact ⟨_, rfl, ⟨inv.rom_b, inv.wram_b, inv.vram_b,
                              inv.oam_b, inv.hram_b, inv.io_b, inv.cart_b,
                              byteOf_le _, inv.boot_b⟩⟩
                          · rw [if_neg h13]
                            exact ⟨m, rfl, inv⟩

/-- A sequence of `write_byte` calls, failure propagating. -/
def applyWrites (m : Memory) : List (Nat × Int) → Option Memory
  | [] => some m
  | w :: ws => (m.write_byte w.1 w.2).bind (fun m' => applyWrites m' ws)

/-- Every write sequence from an invariant state succeeds and preserves
the invariant. -/
lemma applyWrites_total {m : Memory} (inv : MemInv m) (ws : List (Nat × Int)) :
    ∃ m', applyWrites m ws = some m' ∧ MemInv m' := by
  induction ws generalizing m with
  | nil => exact ⟨m, rfl, inv⟩
  | cons w ws ih =>
      obtain ⟨m1, hw, inv1⟩ := write_byte_total inv w.1 w.2
      obtain ⟨m2, ha, inv2⟩ := ih inv1
      refine ⟨m2, ?_, inv2⟩
      show (m.write_byte w.1 w.2).bind (fun m' => applyWrites m' ws) = some m2
      rw [hw]
      exact ha

/-- C10: for every address in 0x0000-0xFFFF and after any sequence of
`write_byte` calls with arbitrary integer values from the constructor
state, `read_byte` returns an integer in 0..255 and no list access ever
goes out of bounds (no Python exception, i.e. never `none`): writes are
masked to 8 bits and all region indexings stay in bounds. -/
theorem C10_memory_safety (ws : List (Nat × Int)) (a : Nat) (ha : a < 0x10000) :
    ∃ m v, applyWrites Memory.init ws = some m ∧
      m.read_byte a = some v ∧ v ≤ 255 := by
  obtain ⟨m, hws, inv⟩ := applyWrites_total init_inv ws
  obtain ⟨v, hr, hv⟩ := read_byte_total inv a
  exact ⟨m, v, hws, hr, hv⟩

/-- C10 witness: one concrete write then read at 0xC000. -/
theorem C10_memory_safety_witness :
    0xC000 < 0x10000 ∧
    ∃ m v, applyWrites Memory.init [(0xC000, 0x42)] = some m ∧
      m.read_byte 0xC000 = some v ∧ v ≤ 255 :=
  ⟨by decide, C10_memory_safety [(0xC000, 0x42)] 0xC000 (by decide)⟩

end GBEmu

